import Mathlib

/-!
Shallow embedding of the live-session server (`src/app/server/server.js`) and
the resilient client transport (`ws-client.js`), for checking the repository's
specification claims.  JavaScript strings become Lean `String`; absent or
non-string JSON fields become `none : Option String`; the `ws → client`
`Map` becomes an insertion-ordered association list keyed by a socket id
(`Nat`); `Date.now()` timestamps become `Int` parameters.  Side effects
(socket sends, broadcasts, WiZ UDP sends) are reified as an `Effect` list.
-/

set_option maxRecDepth 100000

namespace LightRoom

/-! ## Sanitizers (server.js lines 565-584) -/

/-- The characters removed by JavaScript `String.prototype.trim`
(WhiteSpace and LineTerminator code points). -/
def isJsWhitespace (c : Char) : Bool :=
  c = ' ' || c = '\t' || c = '\n' || c = '\r' ||
  c = Char.ofNat 0x0B || c = Char.ofNat 0x0C ||
  c = Char.ofNat 0xA0 || c = Char.ofNat 0x1680 ||
  (0x2000 ≤ c.toNat && c.toNat ≤ 0x200A) ||
  c = Char.ofNat 0x2028 || c = Char.ofNat 0x2029 ||
  c = Char.ofNat 0x202F || c = Char.ofNat 0x205F ||
  c = Char.ofNat 0x3000 || c = Char.ofNat 0xFEFF

/-- JavaScript `str.trim()`: strip leading and trailing whitespace. -/
def jsTrim (s : String) : String :=
  String.mk ((((s.data.dropWhile isJsWhitespace).reverse).dropWhile isJsWhitespace).reverse)

/-- JavaScript `sanitize(str, maxLen = 100)`: non-strings become `''`; strings are
trimmed, sliced to `maxLen`, and have every `<` and `>` removed
(server.js lines 565-568). -/
def jsSanitize (s : Option String) (maxLen : Nat := 100) : String :=
  match s with
  | none => ""
  | some s =>
      String.mk ((((jsTrim s).take maxLen).data.filter (fun c => !(c = '<' || c = '>'))))

/-- A hex digit as accepted by the regex class `[0-9A-Fa-f]`. -/
def isHexDigitJs (c : Char) : Bool :=
  ('0' ≤ c && c ≤ '9') || ('A' ≤ c && c ≤ 'F') || ('a' ≤ c && c ≤ 'f')

/-- Whether a string matches the regex `^#[0-9A-Fa-f]{6}$`. -/
def hexColorMatch (s : String) : Bool :=
  match s.data with
  | '#' :: rest => rest.length = 6 && rest.all isHexDigitJs
  | _ => false

/-- JavaScript `toUpperCase` restricted to the characters at hand (ASCII). -/
def jsToUpper (s : String) : String :=
  String.mk (s.data.map Char.toUpper)

/-- Source `sanitizeHex(str)` (server.js lines 570-574): non-strings are rejected;
otherwise the trimmed string must match `^#[0-9A-Fa-f]{6}$` and the trimmed,
upper-cased string is returned. -/
def sanitizeHex (s : Option String) : Option String :=
  match s with
  | none => none
  | some s => if hexColorMatch (jsTrim s) then some (jsToUpper (jsTrim s)) else none

/-- Source `sanitizeEmoji(str)` (server.js lines 576-579): allow-list membership. -/
def sanitizeEmoji (s : Option String) : Option String :=
  match s with
  | none => none
  | some s => if s = "👀" || s = "💡" || s = "🔥" || s = "😮" then some s else none

/-- Source `sanitizeMode(str)` (server.js lines 581-584): allow-list membership. -/
def sanitizeMode (s : Option String) : Option String :=
  match s with
  | none => none
  | some s =>
      if s = "lobby" || s = "color" || s = "ambient" || s = "photos" ||
         s = "text" || s = "demo" || s = "qa" || s = "sendoff"
      then some s else none

/-- Modelled from the spec (for the refinement comparison in the sanitizer
claim): a string "matching exactly `#` + six hexadecimal digits", with no
trimming or other normalization before the match. -/
def specColorExact (s : String) : Bool :=
  hexColorMatch s

/-! ## Data model (server.js lines 61-69 and 375) -/

/-- One stored text/question entry: `{ name, text, hex }`
(server.js lines 484 and 498).  `hex` is the sender's current color and may
still be `null`. -/
structure Entry where
  name : String
  text : String
  hex : Option String
deriving DecidableEq, Repr

/-- One element of the welcome payload's `students` array
(server.js line 389). -/
structure StudentEntry where
  name : String
  hex : Option String
  colorsSent : Nat
deriving DecidableEq, Repr

/-- Per-connection record: `{ name, hex, isHost, colorsSent, lastColorAt }`
(server.js line 375). -/
structure Client where
  name : Option String
  hex : Option String
  isHost : Bool
  colorsSent : Nat
  lastColorAt : Int
deriving DecidableEq, Repr

/-- The blank record registered for a fresh connection (server.js line 375). -/
def blankClient : Client :=
  { name := none, hex := none, isHost := false, colorsSent := 0, lastColorAt := 0 }

/-- The mutable `appState` singleton (server.js lines 61-69), minus the
static `photos` list (filesystem contents, out of the model).  `clients` is
the insertion-ordered `Map` from socket to client record. -/
structure AppState where
  mode : String
  roomColorHex : String
  totalColorChanges : Nat
  clients : List (Nat × Client)
  questions : List Entry
  textResponses : List Entry
deriving DecidableEq, Repr

/-- The server's initial state (server.js lines 61-69). -/
def initialState : AppState :=
  { mode := "lobby", roomColorHex := "#FF6EB4", totalColorChanges := 0,
    clients := [], questions := [], textResponses := [] }

/-- Lookup with `Map.get` semantics on the association list. -/
def clientsFind : List (Nat × Client) → Nat → Option Client
  | [], _ => none
  | p :: l, sid => if p.1 = sid then some p.2 else clientsFind l sid

/-- In-place mutation of the record stored under a key (position preserved,
like mutating the object held in a JS `Map`). -/
def clientsUpdate (l : List (Nat × Client)) (sid : Nat) (f : Client → Client) :
    List (Nat × Client) :=
  l.map (fun p => if p.1 = sid then (p.1, f p.2) else p)

/-- Source `appState.clients.get(socket)`. -/
def lookupClient (st : AppState) (sid : Nat) : Option Client :=
  clientsFind st.clients sid

/-- In-place mutation of the record stored for `sid`. -/
def updateClient (st : AppState) (sid : Nat) (f : Client → Client) : AppState :=
  { st with clients := clientsUpdate st.clients sid f }

/-- Insertion with `Map.set` semantics: overwrite in place if present, else append. -/
def mapSet (l : List (Nat × Client)) (sid : Nat) (c : Client) : List (Nat × Client) :=
  if l.any (fun p => p.1 = sid) then l.map (fun p => if p.1 = sid then (p.1, c) else p)
  else l ++ [(sid, c)]

/-- Source `studentCount()` (server.js lines 557-561): connections with a name that
are not the host. -/
def studentCount (st : AppState) : Nat :=
  (st.clients.filter (fun p => p.2.name.isSome && !p.2.isHost)).length

/-- The welcome payload's `students` array (server.js lines 387-389). -/
def studentsList (st : AppState) : List StudentEntry :=
  (st.clients.filter (fun p => p.2.name.isSome && !p.2.isHost)).map
    (fun p => { name := p.2.name.getD "", hex := p.2.hex, colorsSent := p.2.colorsSent })

/-- JavaScript `arr.slice(-n)`: the last `n` elements (all of them when the
array is shorter). -/
def lastN (n : Nat) (l : List Entry) : List Entry :=
  l.drop (l.length - n)

/-! ## Wire messages and effects -/

/-- Client → server messages (server.js lines 19-27).  A field of type
`Option String` is `none` when the JSON field is absent or not a string. -/
inductive ClientMsg where
  | join (name : Option String) (hex : Option String)
  | color (hex : Option String)
  | reaction (emoji : Option String)
  | text_response (text : Option String)
  | question (text : Option String)
  | host_join (key : Option String)
  | host_color (hex : Option String) (key : Option String)
  | mode (mode : Option String) (key : Option String)
  | other
deriving DecidableEq, Repr

/-- Server → client events (server.js lines 29-38). -/
inductive ServerEvent where
  | welcome (mode : String) (count : Nat) (totalColorChanges : Nat)
      (roomColor : String) (textResponses : List Entry) (questions : List Entry)
      (students : List StudentEntry)
  | joinedEv (count : Nat)
  | joinEv (name : String) (hex : String) (count : Nat)
  | colorEv (name : String) (hex : String)
  | reactionEv (name : String) (emoji : String)
  | textEv (e : Entry)
  | questionEv (e : Entry)
  | modeEv (mode : String)
  | demoStart
  | leaveEv (name : Option String) (count : Nat)
deriving DecidableEq, Repr

/-- Reified side effects of the handlers, in program order:
`reply` is `socket.send` to one socket, `broadcastEv` is a call of
`broadcast(msg, excludeSocket)`, `wiz` is `sendToWiz(hex)`. -/
inductive Effect where
  | reply (target : Nat) (ev : ServerEvent)
  | broadcastEv (ev : ServerEvent) (exclude : Option Nat)
  | wiz (hex : String)
deriving DecidableEq, Repr

/-- The welcome payload sent on connection (server.js lines 378-390). -/
def welcomePayload (st : AppState) : ServerEvent :=
  .welcome st.mode st.clients.length st.totalColorChanges st.roomColorHex
    (lastN 20 st.textResponses) (lastN 20 st.questions) (studentsList st)

/-- Constant `COLOR_RATE_MS` (server.js line 145). -/
def COLOR_RATE_MS : Int := 300

/-- Source `arr.push(e); if (arr.length > 200) arr.shift();`
(server.js lines 485-487 and 499-501). -/
def capPush (l : List Entry) (e : Entry) : List Entry :=
  let l2 := l ++ [e]
  if l2.length > 200 then l2.tail else l2

/-! ## Message handler (server.js lines 424-544)

`hostKey` is the configured `HOST_KEY`; `now` is `Date.now()` at the moment
the message is handled (only the `color` case reads the clock). -/

def handleMessage (hostKey : String) (st : AppState) (sid : Nat)
    (msg : ClientMsg) (now : Int) : AppState × List Effect :=
  match lookupClient st sid with
  | none => (st, [])
  | some client =>
    match msg with
    | .join name hex =>
        let n := jsSanitize name 100
        let h := sanitizeHex hex
        match h with
        | none => (st, [])
        | some h =>
          if n = "" then (st, [])
          else
            let st := updateClient st sid (fun c => { c with name := some n, hex := some h })
            (st, [.reply sid (.joinedEv (studentCount st)),
                  .broadcastEv (.joinEv n h (studentCount st)) none])
    | .color hex =>
        match client.name with
        | none => (st, [])
        | some cname =>
          match sanitizeHex hex with
          | none => (st, [])
          | some h =>
            if now - client.lastColorAt < COLOR_RATE_MS then (st, [])
            else
              let st := updateClient st sid (fun c =>
                { c with lastColorAt := now, hex := some h, colorsSent := c.colorsSent + 1 })
              let st := { st with totalColorChanges := st.totalColorChanges + 1,
                                  roomColorHex := h }
              (st, [.wiz h, .broadcastEv (.colorEv cname h) (some sid)])
    | .reaction emoji =>
        match client.name with
        | none => (st, [])
        | some cname =>
          match sanitizeEmoji emoji with
          | none => (st, [])
          | some e => (st, [.broadcastEv (.reactionEv cname e) (some sid)])
    | .text_response text =>
        match client.name with
        | none => (st, [])
        | some cname =>
          let t := jsSanitize text 200
          if t = "" then (st, [])
          else
            let entry : Entry := { name := cname, text := t, hex := client.hex }
            let st := { st with textResponses := capPush st.textResponses entry }
            (st, [.broadcastEv (.textEv entry) none])
    | .question text =>
        match client.name with
        | none => (st, [])
        | some cname =>
          let t := jsSanitize text 300
          if t = "" then (st, [])
          else
            let entry : Entry := { name := cname, text := t, hex := client.hex }
            let st := { st with questions := capPush st.questions entry }
            (st, [.broadcastEv (.questionEv entry) none])
    | .host_join key =>
        if key = some hostKey then
          (updateClient st sid (fun c => { c with isHost := true, name := some "__host__" }), [])
        else (st, [])
    | .host_color hex key =>
        if key = some hostKey && client.isHost then
          match sanitizeHex hex with
          | none => (st, [])
          | some h =>
            ({ st with roomColorHex := h },
             [.wiz h, .broadcastEv (.colorEv "Ashika" h) none])
        else (st, [])
    | .mode m key =>
        if key = some hostKey && client.isHost then
          match sanitizeMode m with
          | none => (st, [])
          | some m =>
            ({ st with mode := m },
             if m = "demo" then
               [.broadcastEv (.modeEv m) none, .broadcastEv .demoStart none]
             else
               [.broadcastEv (.modeEv m) none])
        else (st, [])
    | .other => (st, [])

/-- Handler `wss.on('connection')` (server.js lines 373-390): register a blank
record, then send the welcome snapshot of the *new* state to the socket. -/
def onConnection (st : AppState) (sid : Nat) : AppState × List Effect :=
  let st := { st with clients := mapSet st.clients sid blankClient }
  (st, [.reply sid (welcomePayload st)])

/-- Handler `socket.on('close')` (server.js lines 403-415): remove the record, then
broadcast a leave event with the new student count. -/
def onClose (st : AppState) (sid : Nat) : AppState × List Effect :=
  let client := lookupClient st sid
  let st := { st with clients := st.clients.filter (fun p => !(p.1 = sid)) }
  (st, [.broadcastEv (.leaveEv (client.bind Client.name) (studentCount st)) none])

/-! ## Server traces -/

/-- One external stimulus to the server. -/
inductive Input where
  | connect (sid : Nat)
  | close (sid : Nat)
  | msg (sid : Nat) (m : ClientMsg) (now : Int)
deriving DecidableEq, Repr

/-- One step of the server. -/
def step (hostKey : String) (st : AppState) (i : Input) : AppState × List Effect :=
  match i with
  | .connect sid => onConnection st sid
  | .close sid => onClose st sid
  | .msg sid m now => handleMessage hostKey st sid m now

/-- Run a trace of inputs, discarding effects. -/
def run (hostKey : String) (st : AppState) (tr : List Input) : AppState :=
  tr.foldl (fun s i => (step hostKey s i).fst) st

/-- Run a trace of inputs, collecting all effects in order. -/
def runEffects (hostKey : String) (st : AppState) (tr : List Input) : List Effect :=
  match tr with
  | [] => []
  | i :: tr =>
      let (st2, effs) := step hostKey st i
      effs ++ runEffects hostKey st2 tr

/-- Whether an input is an accepted participant color action in state `st`:
the sender is registered and named, the color sanitizes, and the 300 ms rate
gate passes — exactly the guards of the `'color'` case
(server.js lines 446-453). -/
def acceptedColor (st : AppState) (i : Input) : Bool :=
  match i with
  | .msg sid (.color hex) now =>
      match lookupClient st sid with
      | none => false
      | some c =>
          c.name.isSome && (sanitizeHex hex).isSome &&
          !(now - c.lastColorAt < COLOR_RATE_MS)
  | _ => false

/-- The number of accepted participant color actions along a trace. -/
def acceptedColorN (hostKey : String) (st : AppState) (tr : List Input) : Nat :=
  match tr with
  | [] => 0
  | i :: tr =>
      (if acceptedColor st i then 1 else 0) +
      acceptedColorN hostKey (step hostKey st i).fst tr

/-! ## Broadcast delivery (server.js lines 548-555)

`broadcast(msg, excludeSocket)` walks the client map and writes to every
socket that is not the excluded one and is in the OPEN ready state.
`isOpen` abstracts `socket.readyState === WebSocket.OPEN` at delivery
time. -/

def broadcastTargets (clients : List (Nat × Client)) (isOpen : Nat → Bool)
    (exclude : Option Nat) : List Nat :=
  (clients.map Prod.fst).filter (fun sid => !(exclude = some sid) && isOpen sid)

/-- The `colorsSent` counter observed for a socket id (0 when absent). -/
def getColorsSent (st : AppState) (sid : Nat) : Nat :=
  match lookupClient st sid with
  | none => 0
  | some c => c.colorsSent

/-! ## Helper lemmas -/

theorem clientsFind_clientsUpdate (l : List (Nat × Client)) (sid : Nat)
    (f : Client → Client) (sid' : Nat) :
    clientsFind (clientsUpdate l sid f) sid'
      = if sid' = sid then (clientsFind l sid').map f else clientsFind l sid' := by
  induction l with
  | nil => by_cases h : sid' = sid <;> simp [clientsFind, clientsUpdate, h]
  | cons p l ih =>
    simp only [clientsUpdate, List.map_cons] at *
    by_cases h1 : p.1 = sid
    · subst h1
      by_cases h2 : p.1 = sid'
      · subst h2
        simp [clientsFind]
      · have h3 : ¬ sid' = p.1 := fun h => h2 h.symm
        simp [clientsFind, h2, h3, ih]
    · by_cases h2 : p.1 = sid'
      · subst h2
        simp [clientsFind, h1]
      · simp [clientsFind, h1, h2, ih]

theorem step_totalColorChanges (k : String) (st : AppState) (i : Input) :
    ((step k st i).fst).totalColorChanges
      = st.totalColorChanges + (if acceptedColor st i then 1 else 0) := by
  cases i with
  | connect sid => simp [step, onConnection, acceptedColor]
  | close sid => simp [step, onClose, acceptedColor]
  | msg sid m now =>
    cases m with
    | color hex =>
      cases hc : lookupClient st sid with
      | none => simp [step, handleMessage, acceptedColor, hc]
      | some c =>
        cases hn : c.name with
        | none => simp [step, handleMessage, acceptedColor, hc, hn]
        | some cname =>
          cases hs : sanitizeHex hex with
          | none => simp [step, handleMessage, acceptedColor, hc, hn, hs]
          | some hx =>
            by_cases hr : now - c.lastColorAt < COLOR_RATE_MS <;>
              simp [step, handleMessage, acceptedColor, hc, hn, hs, hr, updateClient]
    | join name hex =>
      cases hc : lookupClient st sid with
      | none => simp [step, handleMessage, acceptedColor, hc]
      | some c =>
        cases hs : sanitizeHex hex with
        | none => simp [step, handleMessage, acceptedColor, hc, hs]
        | some hx =>
          by_cases he : jsSanitize name 100 = "" <;>
            simp [step, handleMessage, acceptedColor, hc, hs, he, updateClient]
    | reaction emoji =>
      cases hc : lookupClient st sid with
      | none => simp [step, handleMessage, acceptedColor, hc]
      | some c =>
        cases hn : c.name with
        | none => simp [step, handleMessage, acceptedColor, hc, hn]
        | some cname =>
          cases hs : sanitizeEmoji emoji with
          | none => simp [step, handleMessage, acceptedColor, hc, hn, hs]
          | some e => simp [step, handleMessage, acceptedColor, hc, hn, hs]
    | text_response text =>
      cases hc : lookupClient st sid with
      | none => simp [step, handleMessage, acceptedColor, hc]
      | some c =>
        cases hn : c.name with
        | none => simp [step, handleMessage, acceptedColor, hc, hn]
        | some cname =>
          by_cases he : jsSanitize text 200 = "" <;>
            simp [step, handleMessage, acceptedColor, hc, hn, he]
    | question text =>
      cases hc : lookupClient st sid with
      | none => simp [step, handleMessage, acceptedColor, hc]
      | some c =>
        cases hn : c.name with
        | none => simp [step, handleMessage, acceptedColor, hc, hn]
        | some cname =>
          by_cases he : jsSanitize text 300 = "" <;>
            simp [step, handleMessage, acceptedColor, hc, hn, he]
    | host_join key =>
      cases hc : lookupClient st sid with
      | none => simp [step, handleMessage, acceptedColor, hc]
      | some c =>
        by_cases hk : key = some k <;>
          simp [step, handleMessage, acceptedColor, hc, hk, updateClient]
    | host_color hex key =>
      cases hc : lookupClient st sid with
      | none => simp [step, handleMessage, acceptedColor, hc]
      | some c =>
        simp only [step, handleMessage, acceptedColor, hc]
        split
        · split <;> simp
        · simp
    | mode m key =>
      cases hc : lookupClient st sid with
      | none => simp [step, handleMessage, acceptedColor, hc]
      | some c =>
        simp only [step, handleMessage, acceptedColor, hc]
        split
        · split <;> simp
        · simp
    | other =>
      cases hc : lookupClient st sid with
      | none => simp [step, handleMessage, acceptedColor, hc]
      | some c => simp [step, handleMessage, acceptedColor, hc]

theorem run_totalColorChanges (k : String) (st : AppState) (tr : List Input) :
    (run k st tr).totalColorChanges = st.totalColorChanges + acceptedColorN k st tr := by
  induction tr generalizing st with
  | nil => simp [run, acceptedColorN]
  | cons i tr ih =>
    have h1 : run k st (i :: tr) = run k ((step k st i).fst) tr := rfl
    have h2 : acceptedColorN k st (i :: tr)
        = (if acceptedColor st i then 1 else 0) + acceptedColorN k ((step k st i).fst) tr := rfl
    rw [h1, h2, ih, step_totalColorChanges]
    omega

theorem handleMessage_color_colorsSent (k : String) (st : AppState) (sid : Nat)
    (hex : Option String) (now : Int) (sid' : Nat) :
    getColorsSent ((handleMessage k st sid (.color hex) now).fst) sid'
      = getColorsSent st sid'
        + (if sid' = sid && acceptedColor st (.msg sid (.color hex) now) then 1 else 0) := by
  cases hc : lookupClient st sid with
  | none => simp [handleMessage, acceptedColor, hc]
  | some c =>
    cases hn : c.name with
    | none => simp [handleMessage, acceptedColor, hc, hn]
    | some cname =>
      cases hs : sanitizeHex hex with
      | none => simp [handleMessage, acceptedColor, hc, hn, hs]
      | some hx =>
        by_cases hr : now - c.lastColorAt < COLOR_RATE_MS
        · simp [handleMessage, acceptedColor, hc, hn, hs, hr]
        · have hc' : clientsFind st.clients sid = some c := hc
          by_cases he : sid' = sid
          · subst he
            simp [handleMessage, acceptedColor, getColorsSent, lookupClient, updateClient,
              clientsFind_clientsUpdate, hc', hn, hs, hr]
          · simp [handleMessage, acceptedColor, getColorsSent, lookupClient, updateClient,
              clientsFind_clientsUpdate, hc', hn, hs, hr, he]

/-! ## Concrete scenarios -/

/-- Connection 1 joins as Sam with a valid color. -/
def samJoin : List Input :=
  [.connect 1, .msg 1 (.join (some "Sam") (some "#FF6EB4")) 0]

/-- The host joins with the correct key and then sends a `host_color`. -/
def c1Trace : List Input :=
  [.connect 1, .msg 1 (.host_join (some "ashika")) 0,
   .msg 1 (.host_color (some "#00FF00") (some "ashika")) 0]

/-- Sam sends two text responses 1 ms apart. -/
def c2TextTrace : List Input :=
  samJoin ++ [.msg 1 (.text_response (some "hello")) 1000,
              .msg 1 (.text_response (some "again")) 1001]

/-- Sam sends two color actions 100 ms apart. -/
def c2Color100Trace : List Input :=
  samJoin ++ [.msg 1 (.color (some "#00FF00")) 1000,
              .msg 1 (.color (some "#0000FF")) 1100]

/-- Sam sends two color actions 350 ms apart. -/
def c2Color350Trace : List Input :=
  samJoin ++ [.msg 1 (.color (some "#00FF00")) 1000,
              .msg 1 (.color (some "#0000FF")) 1350]

/-- Ana joins on connection 1, disconnects, and reconnects as connection 2. -/
def c4Trace : List Input :=
  [.connect 1, .msg 1 (.join (some "Ana") (some "#FF6EB4")) 0,
   .close 1, .connect 2]

/-! ## Claim theorems -/

/-- C1. (counterexample to the claim as stated): a facilitator `host_color`
action with the correct key is accepted — it produces the `color` broadcast
and the WiZ sink call — yet `totalColorChanges` stays at 0 and no
connection's `colorsSent` increases, so not every accepted color action
increments the counters. -/
theorem c1_counterexample :
    Effect.broadcastEv (.colorEv "Ashika" "#00FF00") none
        ∈ runEffects "ashika" initialState c1Trace
    ∧ Effect.wiz "#00FF00" ∈ runEffects "ashika" initialState c1Trace
    ∧ (run "ashika" initialState c1Trace).totalColorChanges = 0
    ∧ getColorsSent (run "ashika" initialState c1Trace) 1 = 0 := by decide

/-- C1. (amended): `totalColorChanges` increases by exactly one for each
accepted *participant* color action and is unchanged by every other input:
over any trace of connects, closes and messages from any mix of connections
it ends at its prior value plus exactly the number of accepted participant
color actions; and for a `color` message every accepted action also
increments the sender's `colorsSent` by exactly one, leaving every other
connection's counter unchanged.  Facilitator `host_color` actions increment
neither counter. -/
theorem c1_color_counters_amended :
    (∀ (k : String) (st : AppState) (tr : List Input),
        (run k st tr).totalColorChanges = st.totalColorChanges + acceptedColorN k st tr)
    ∧ (∀ (k : String) (st : AppState) (sid : Nat) (hex : Option String) (now : Int)
          (sid' : Nat),
        getColorsSent ((handleMessage k st sid (.color hex) now).fst) sid'
          = getColorsSent st sid'
            + (if sid' = sid && acceptedColor st (.msg sid (.color hex) now) then 1 else 0)) :=
  ⟨run_totalColorChanges, handleMessage_color_colorsSent⟩

/-- C2.: the server has no rate limit at all for text submissions — two
text responses from the same connection 1 ms apart are both appended to the
history and both broadcast, diverging from the documented 8 s server guard;
the color limit does behave as claimed: two color actions 100 ms apart yield
one accepted action, 350 ms apart yield two. -/
theorem c2_rate_limit_behavior :
    (run "ashika" initialState c2TextTrace).textResponses
        = [{ name := "Sam", text := "hello", hex := some "#FF6EB4" },
           { name := "Sam", text := "again", hex := some "#FF6EB4" }]
    ∧ Effect.broadcastEv (.textEv { name := "Sam", text := "hello", hex := some "#FF6EB4" }) none
          ∈ runEffects "ashika" initialState c2TextTrace
    ∧ Effect.broadcastEv (.textEv { name := "Sam", text := "again", hex := some "#FF6EB4" }) none
          ∈ runEffects "ashika" initialState c2TextTrace
    ∧ (run "ashika" initialState c2Color100Trace).totalColorChanges = 1
    ∧ (run "ashika" initialState c2Color350Trace).totalColorChanges = 2 := by decide

/-- C4. (counterexample to the claim as stated): Ana joins, disconnects and
reconnects; the welcome sent to the reconnected socket carries an empty
`students` roster — the name "Ana" appears zero times in it, not exactly
once. -/
theorem c4_counterexample :
    runEffects "ashika" initialState c4Trace
      = [.reply 1 (.welcome "lobby" 1 0 "#FF6EB4" [] [] []),
         .reply 1 (.joinedEv 1),
         .broadcastEv (.joinEv "Ana" "#FF6EB4" 1) none,
         .broadcastEv (.leaveEv (some "Ana") 0) none,
         .reply 2 (.welcome "lobby" 1 0 "#FF6EB4" [] [] [])]
    ∧ (studentsList (run "ashika" initialState c4Trace)).countP
        (fun s => s.name == "Ana") = 0
    ∧ ¬ (studentsList (run "ashika" initialState c4Trace)).countP
        (fun s => s.name == "Ana") = 1 := by decide

/-- C4. (amended): the reconnect welcome's roster contains "Ana" zero
times, because the server deletes the record on close; the client re-sends
its join upon receiving the welcome, and after that re-join the roster again
contains "Ana" exactly once — not zero times and not twice. -/
theorem c4_amended :
    (studentsList (run "ashika" initialState c4Trace)).countP
        (fun s => s.name == "Ana") = 0
    ∧ (studentsList (run "ashika" initialState
          (c4Trace ++ [.msg 2 (.join (some "Ana") (some "#FF6EB4")) 0]))).countP
        (fun s => s.name == "Ana") = 1 := by decide

/-! ## Bounded-history lemmas (C3) -/

theorem capPush_length (l : List Entry) (e : Entry) (h : l.length ≤ 200) :
    (capPush l e).length ≤ 200 := by
  simp only [capPush]
  split
  · simp [List.length_tail, List.length_append]
    omega
  · simp_all [List.length_append]

theorem lastN_of_le (l : List Entry) (h : l.length ≤ 200) : lastN 200 l = l := by
  simp [lastN, Nat.sub_eq_zero_of_le h]

theorem lastN_tail (xs ys : List Entry) (h : 201 ≤ xs.length) :
    lastN 200 (xs.tail ++ ys) = lastN 200 (xs ++ ys) := by
  cases xs with
  | nil => simp at h
  | cons a xs =>
    simp only [List.tail_cons, List.cons_append, lastN, List.length_append,
      List.length_cons]
    have h2 : xs.length + ys.length + 1 - 200 = (xs.length + ys.length - 200) + 1 := by
      simp at h; omega
    rw [h2, List.drop_succ_cons]

theorem foldl_capPush (l es : List Entry) (h : l.length ≤ 200) :
    es.foldl capPush l = lastN 200 (l ++ es) := by
  induction es generalizing l with
  | nil => simp [lastN_of_le l h]
  | cons e es ih =>
    rw [List.foldl_cons, ih (capPush l e) (capPush_length l e h)]
    by_cases h2 : (l ++ [e]).length > 200
    · have h3 : capPush l e = (l ++ [e]).tail := by
        simp only [capPush]
        rw [if_pos h2]
      rw [h3, lastN_tail (l ++ [e]) es (by simp [List.length_append] at h2 ⊢; omega)]
      simp
    · have h3 : capPush l e = l ++ [e] := by
        simp only [capPush]
        rw [if_neg h2]
      rw [h3]
      simp

theorem handleMessage_textResponses (k : String) (st : AppState) (sid : Nat)
    (m : ClientMsg) (now : Int) :
    ((handleMessage k st sid m now).fst).textResponses = st.textResponses
    ∨ ∃ e, ((handleMessage k st sid m now).fst).textResponses = capPush st.textResponses e := by
  cases hc : lookupClient st sid with
  | none => left; simp [handleMessage, hc]
  | some c =>
    cases m with
    | text_response text =>
      cases hn : c.name with
      | none => left; simp [handleMessage, hc, hn]
      | some cname =>
        by_cases he : jsSanitize text 200 = ""
        · left; simp [handleMessage, hc, hn, he]
        · right
          exact ⟨{ name := cname, text := jsSanitize text 200, hex := c.hex },
            by simp [handleMessage, hc, hn, he]⟩
    | color hex =>
      left
      cases hn : c.name with
      | none => simp [handleMessage, hc, hn]
      | some cname =>
        cases hs : sanitizeHex hex with
        | none => simp [handleMessage, hc, hn, hs]
        | some hx =>
          by_cases hr : now - c.lastColorAt < COLOR_RATE_MS <;>
            simp [handleMessage, hc, hn, hs, hr, updateClient]
    | join name hex =>
      left
      cases hs : sanitizeHex hex with
      | none => simp [handleMessage, hc, hs]
      | some hx =>
        by_cases he : jsSanitize name 100 = "" <;>
          simp [handleMessage, hc, hs, he, updateClient]
    | reaction emoji =>
      left
      cases hn : c.name with
      | none => simp [handleMessage, hc, hn]
      | some cname =>
        cases hs : sanitizeEmoji emoji with
        | none => simp [handleMessage, hc, hn, hs]
        | some e => simp [handleMessage, hc, hn, hs]
    | question text =>
      left
      cases hn : c.name with
      | none => simp [handleMessage, hc, hn]
      | some cname =>
        by_cases he : jsSanitize text 300 = "" <;>
          simp [handleMessage, hc, hn, he]
    | host_join key =>
      left
      by_cases hk : key = some k <;> simp [handleMessage, hc, hk, updateClient]
    | host_color hex key =>
      left
      simp only [handleMessage, hc]
      split
      · split <;> simp
      · simp
    | mode m key =>
      left
      simp only [handleMessage, hc]
      split
      · split <;> simp
      · simp
    | other => left; simp [handleMessage, hc]

theorem handleMessage_questions (k : String) (st : AppState) (sid : Nat)
    (m : ClientMsg) (now : Int) :
    ((handleMessage k st sid m now).fst).questions = st.questions
    ∨ ∃ e, ((handleMessage k st sid m now).fst).questions = capPush st.questions e := by
  cases hc : lookupClient st sid with
  | none => left; simp [handleMessage, hc]
  | some c =>
    cases m with
    | question text =>
      cases hn : c.name with
      | none => left; simp [handleMessage, hc, hn]
      | some cname =>
        by_cases he : jsSanitize text 300 = ""
        · left; simp [handleMessage, hc, hn, he]
        · right
          exact ⟨{ name := cname, text := jsSanitize text 300, hex := c.hex },
            by simp [handleMessage, hc, hn, he]⟩
    | color hex =>
      left
      cases hn : c.name with
      | none => simp [handleMessage, hc, hn]
      | some cname =>
        cases hs : sanitizeHex hex with
        | none => simp [handleMessage, hc, hn, hs]
        | some hx =>
          by_cases hr : now - c.lastColorAt < COLOR_RATE_MS <;>
            simp [handleMessage, hc, hn, hs, hr, updateClient]
    | join name hex =>
      left
      cases hs : sanitizeHex hex with
      | none => simp [handleMessage, hc, hs]
      | some hx =>
        by_cases he : jsSanitize name 100 = "" <;>
          simp [handleMessage, hc, hs, he, updateClient]
    | reaction emoji =>
      left
      cases hn : c.name with
      | none => simp [handleMessage, hc, hn]
      | some cname =>
        cases hs : sanitizeEmoji emoji with
        | none => simp [handleMessage, hc, hn, hs]
        | some e => simp [handleMessage, hc, hn, hs]
    | text_response text =>
      left
      cases hn : c.name with
      | none => simp [handleMessage, hc, hn]
      | some cname =>
        by_cases he : jsSanitize text 200 = "" <;>
          simp [handleMessage, hc, hn, he]
    | host_join key =>
      left
      by_cases hk : key = some k <;> simp [handleMessage, hc, hk, updateClient]
    | host_color hex key =>
      left
      simp only [handleMessage, hc]
      split
      · split <;> simp
      · simp
    | mode m key =>
      left
      simp only [handleMessage, hc]
      split
      · split <;> simp
      · simp
    | other => left; simp [handleMessage, hc]

/-- Entries numbered 0 to 204, used to instantiate the bounded-history theorem. -/
def es205 : List Entry :=
  (List.range 205).map (fun i => { name := "s", text := toString i, hex := none })

/-- C3.: the text-response and question histories never exceed 200
entries under any handled message, and folding the push-then-evict step over
any batch of appends starting from a history within the bound leaves exactly
the most recent 200 entries (all of them when fewer) in their original
relative order — so the oldest entries are evicted first. -/
theorem c3_bounded_history :
    (∀ (k : String) (st : AppState) (sid : Nat) (m : ClientMsg) (now : Int),
        st.textResponses.length ≤ 200 →
          ((handleMessage k st sid m now).fst).textResponses.length ≤ 200)
    ∧ (∀ (k : String) (st : AppState) (sid : Nat) (m : ClientMsg) (now : Int),
        st.questions.length ≤ 200 →
          ((handleMessage k st sid m now).fst).questions.length ≤ 200)
    ∧ (∀ (l es : List Entry), l.length ≤ 200 →
        es.foldl capPush l = lastN 200 (l ++ es)) := by
  refine ⟨?_, ?_, ?_⟩
  · intro k st sid m now h
    rcases handleMessage_textResponses k st sid m now with h2 | ⟨e, h2⟩
    · rw [h2]; exact h
    · rw [h2]; exact capPush_length _ _ h
  · intro k st sid m now h
    rcases handleMessage_questions k st sid m now with h2 | ⟨e, h2⟩
    · rw [h2]; exact h
    · rw [h2]; exact capPush_length _ _ h
  · intro l es h
    exact foldl_capPush l es h

/-- Witness for the bounded-history theorem: concrete instantiations, among
them the claim's own scenario — 205 appends into an empty history leave
`lastN 200` of the appended sequence. -/
theorem c3_bounded_history_witness :
    ((handleMessage "ashika" (run "ashika" initialState c2TextTrace) 1
        (.text_response (some "third")) 2000).fst).textResponses.length ≤ 200
    ∧ es205.foldl capPush [] = lastN 200 ([] ++ es205) :=
  ⟨c3_bounded_history.1 "ashika" (run "ashika" initialState c2TextTrace) 1
      (.text_response (some "third")) 2000 (by decide),
   c3_bounded_history.2.2 [] es205 (by decide)⟩

/-! ## Sanitizer and privilege lemmas (C5, C6, C7, C8) -/

theorem color_msg_rejected (k : String) (st : AppState) (sid : Nat)
    (hex : Option String) (now : Int) (h : sanitizeHex hex = none) :
    handleMessage k st sid (.color hex) now = (st, []) := by
  cases hc : lookupClient st sid with
  | none => simp [handleMessage, hc]
  | some c =>
    cases hn : c.name with
    | none => simp [handleMessage, hc, hn]
    | some cname => simp [handleMessage, hc, hn, h]

/-- C5. (counterexample to the claim as stated): the string
`" #ff00ff"` does not match exactly `#` + six hexadecimal digits (it has a
leading space), yet the sanitizer accepts it, because the code trims the
input before matching. -/
theorem c5_counterexample :
    sanitizeHex (some " #ff00ff") = some "#FF00FF"
    ∧ specColorExact " #ff00ff" = false := by decide

/-- C5. (amended): the color sanitizer accepts exactly the strings whose
whitespace-trimmed form matches `#` + six hexadecimal digits, rejects
non-strings, normalizes accepted input by upper-casing the trimmed string,
and a color action whose value the sanitizer rejects (such as the string
"red") leaves the state unchanged and produces no effect at all — no
broadcast, no counter increment, no WiZ sink call. -/
theorem c5_sanitizer_amended :
    (∀ s : String, (sanitizeHex (some s)).isSome = specColorExact (jsTrim s))
    ∧ sanitizeHex none = none
    ∧ (∀ (s h : String), sanitizeHex (some s) = some h → h = jsToUpper (jsTrim s))
    ∧ (∀ (k : String) (st : AppState) (sid : Nat) (hex : Option String) (now : Int),
        sanitizeHex hex = none → handleMessage k st sid (.color hex) now = (st, [])) := by
  refine ⟨?_, rfl, ?_, ?_⟩
  · intro s
    simp only [sanitizeHex, specColorExact]
    split <;> simp_all
  · intro s h
    simp only [sanitizeHex]
    split
    · intro hh
      exact (Option.some_inj.mp hh).symm
    · intro hh
      cases hh
  · intro k st sid hex now h
    exact color_msg_rejected k st sid hex now h

/-- Witness for the amended sanitizer theorem: "red" is rejected and the
color action carrying it is a complete no-op on the joined state; the
accepted `" #ff00ff"` normalizes to the upper-cased trimmed string. -/
theorem c5_sanitizer_amended_witness :
    sanitizeHex (some "red") = none
    ∧ handleMessage "ashika" (run "ashika" initialState samJoin) 1
        (.color (some "red")) 5000 = (run "ashika" initialState samJoin, [])
    ∧ "#FF00FF" = jsToUpper (jsTrim " #ff00ff") :=
  ⟨by decide,
   c5_sanitizer_amended.2.2.2 "ashika" (run "ashika" initialState samJoin) 1
     (some "red") 5000 (by decide),
   c5_sanitizer_amended.2.2.1 " #ff00ff" "#FF00FF" (by decide)⟩

/-- C6.: broadcast targeting by action kind — every broadcast produced by
an accepted participant color or reaction action carries the sender as its
excluded socket, every broadcast produced by a text or question action
excludes nobody, the excluded socket is never among the delivery targets,
and the targets of a broadcast are exactly the registered connections that
are open and not excluded (so a text/question broadcast reaches an open
sender too). -/
theorem c6_broadcast_targeting :
    (∀ (k : String) (st : AppState) (sid : Nat) (hex : Option String) (now : Int)
        (ev : ServerEvent) (ex : Option Nat),
        Effect.broadcastEv ev ex ∈ (handleMessage k st sid (.color hex) now).snd →
          ex = some sid)
    ∧ (∀ (k : String) (st : AppState) (sid : Nat) (emoji : Option String) (now : Int)
        (ev : ServerEvent) (ex : Option Nat),
        Effect.broadcastEv ev ex ∈ (handleMessage k st sid (.reaction emoji) now).snd →
          ex = some sid)
    ∧ (∀ (k : String) (st : AppState) (sid : Nat) (text : Option String) (now : Int)
        (ev : ServerEvent) (ex : Option Nat),
        Effect.broadcastEv ev ex ∈ (handleMessage k st sid (.text_response text) now).snd →
          ex = none)
    ∧ (∀ (k : String) (st : AppState) (sid : Nat) (text : Option String) (now : Int)
        (ev : ServerEvent) (ex : Option Nat),
        Effect.broadcastEv ev ex ∈ (handleMessage k st sid (.question text) now).snd →
          ex = none)
    ∧ (∀ (cl : List (Nat × Client)) (op : Nat → Bool) (s : Nat),
        s ∉ broadcastTargets cl op (some s))
    ∧ (∀ (cl : List (Nat × Client)) (op : Nat → Bool) (ex : Option Nat) (s : Nat),
        s ∈ broadcastTargets cl op ex ↔
          (s ∈ cl.map Prod.fst ∧ ¬ ex = some s ∧ op s = true)) := by
  have hmem : ∀ (cl : List (Nat × Client)) (op : Nat → Bool) (ex : Option Nat) (s : Nat),
      s ∈ broadcastTargets cl op ex ↔
        (s ∈ cl.map Prod.fst ∧ ¬ ex = some s ∧ op s = true) := by
    intro cl op ex s
    simp [broadcastTargets, List.mem_filter]
  refine ⟨?_, ?_, ?_, ?_, ?_, hmem⟩
  · intro k st sid hex now ev ex h
    cases hc : lookupClient st sid with
    | none => simp [handleMessage, hc] at h
    | some c =>
      cases hn : c.name with
      | none => simp [handleMessage, hc, hn] at h
      | some cname =>
        cases hs : sanitizeHex hex with
        | none => simp [handleMessage, hc, hn, hs] at h
        | some hx =>
          by_cases hr : now - c.lastColorAt < COLOR_RATE_MS
          · simp [handleMessage, hc, hn, hs, hr] at h
          · simp [handleMessage, hc, hn, hs, hr] at h
            exact h.2
  · intro k st sid emoji now ev ex h
    cases hc : lookupClient st sid with
    | none => simp [handleMessage, hc] at h
    | some c =>
      cases hn : c.name with
      | none => simp [handleMessage, hc, hn] at h
      | some cname =>
        cases hs : sanitizeEmoji emoji with
        | none => simp [handleMessage, hc, hn, hs] at h
        | some e =>
          simp [handleMessage, hc, hn, hs] at h
          exact h.2
  · intro k st sid text now ev ex h
    cases hc : lookupClient st sid with
    | none => simp [handleMessage, hc] at h
    | some c =>
      cases hn : c.name with
      | none => simp [handleMessage, hc, hn] at h
      | some cname =>
        by_cases he : jsSanitize text 200 = ""
        · simp [handleMessage, hc, hn, he] at h
        · simp [handleMessage, hc, hn, he] at h
          exact h.2
  · intro k st sid text now ev ex h
    cases hc : lookupClient st sid with
    | none => simp [handleMessage, hc] at h
    | some c =>
      cases hn : c.name with
      | none => simp [handleMessage, hc, hn] at h
      | some cname =>
        by_cases he : jsSanitize text 300 = ""
        · simp [handleMessage, hc, hn, he] at h
        · simp [handleMessage, hc, hn, he] at h
          exact h.2
  · intro cl op s h
    rw [hmem] at h
    exact h.2.1 rfl

/-- Witness for the broadcast-targeting theorem: the color broadcast of an
accepted action from socket 1 excludes socket 1, the text broadcast excludes
nobody, and socket 1 is not a delivery target of a broadcast excluding it
while socket 2 is. -/
theorem c6_broadcast_targeting_witness :
    some (1 : Nat) = some 1
    ∧ (none : Option Nat) = none
    ∧ (1 : Nat) ∉ broadcastTargets [(1, blankClient), (2, blankClient)] (fun _ => true) (some 1)
    ∧ ((2 : Nat) ∈ broadcastTargets [(1, blankClient), (2, blankClient)] (fun _ => true) (some 1)
        ↔ ((2 : Nat) ∈ [(1, blankClient), (2, blankClient)].map Prod.fst
            ∧ ¬ (some 1 : Option Nat) = some 2 ∧ (fun (_ : Nat) => true) 2 = true)) :=
  ⟨c6_broadcast_targeting.1 "ashika" (run "ashika" initialState samJoin) 1
      (some "#00FF00") 1000 (.colorEv "Sam" "#00FF00") (some 1) (by decide),
   c6_broadcast_targeting.2.2.1 "ashika" (run "ashika" initialState samJoin) 1
      (some "hello") 1000 (.textEv { name := "Sam", text := "hello", hex := some "#FF6EB4" })
      none (by decide),
   c6_broadcast_targeting.2.2.2.2.1 [(1, blankClient), (2, blankClient)] (fun _ => true) 1,
   c6_broadcast_targeting.2.2.2.2.2 [(1, blankClient), (2, blankClient)] (fun _ => true) (some 1) 2⟩

/-- C7.: contrary to the claim, an accepted reaction mutates nothing — the
handler leaves the whole server state (so in particular no reaction count
anywhere in it) unchanged for every reaction message, and the concrete
accepted reaction 👀 from the joined participant Sam produces only the
broadcast to the other connections; the server therefore has no per-symbol
counts to serve in a welcome snapshot. -/
theorem c7_reaction_keeps_state :
    (∀ (k : String) (st : AppState) (sid : Nat) (e : Option String) (now : Int),
        ((handleMessage k st sid (.reaction e) now).fst) = st)
    ∧ handleMessage "ashika" (run "ashika" initialState samJoin) 1
        (.reaction (some "👀")) 0
      = (run "ashika" initialState samJoin,
         [.broadcastEv (.reactionEv "Sam" "👀") (some 1)]) := by
  constructor
  · intro k st sid e now
    cases hc : lookupClient st sid with
    | none => simp [handleMessage, hc]
    | some c =>
      cases hn : c.name with
      | none => simp [handleMessage, hc, hn]
      | some cname =>
        cases hs : sanitizeEmoji e with
        | none => simp [handleMessage, hc, hn, hs]
        | some em => simp [handleMessage, hc, hn, hs]
  · decide

/-- C8.: a set-mode message whose key does not match the configured
secret, or whose sender is not a promoted facilitator, leaves the state
unchanged and produces no effect at all (no broadcast and no error reply);
an accepted set-mode sets the session mode and broadcasts it to everybody,
and when the new mode is "demo" it additionally broadcasts the one-shot
`demo_start` trigger. -/
theorem c8_mode_privilege :
    (∀ (k : String) (st : AppState) (sid : Nat) (mo ky : Option String) (now : Int),
        (∀ c, lookupClient st sid = some c → (¬ ky = some k ∨ c.isHost = false)) →
          handleMessage k st sid (.mode mo ky) now = (st, []))
    ∧ (∀ (k : String) (st : AppState) (sid : Nat) (c : Client) (mo : Option String)
          (m : String) (now : Int),
        lookupClient st sid = some c → c.isHost = true → sanitizeMode mo = some m →
          handleMessage k st sid (.mode mo (some k)) now
            = ({ st with mode := m },
               if m = "demo" then
                 [.broadcastEv (.modeEv m) none, .broadcastEv .demoStart none]
               else [.broadcastEv (.modeEv m) none])) := by
  constructor
  · intro k st sid mo ky now hg
    cases hc : lookupClient st sid with
    | none => simp [handleMessage, hc]
    | some c =>
      rcases hg c hc with h | h
      · simp [handleMessage, hc, h]
      · simp [handleMessage, hc, h]
  · intro k st sid c mo m now hc hh hm
    simp [handleMessage, hc, hh, hm]

/-- The state after the host connection 1 authenticates with the correct
key. -/
def hostState : AppState :=
  run "ashika" initialState [.connect 1, .msg 1 (.host_join (some "ashika")) 0]

/-- Witness for the set-mode privilege theorem: a wrong-secret set-mode from
the authenticated host connection is a complete no-op, and a correct demo
set-mode switches the mode and emits both the mode broadcast and the
`demo_start` trigger. -/
theorem c8_mode_privilege_witness :
    handleMessage "ashika" hostState 1 (.mode (some "color") (some "wrong")) 0
      = (hostState, [])
    ∧ handleMessage "ashika" hostState 1 (.mode (some "demo") (some "ashika")) 0
      = ({ hostState with mode := "demo" },
         [.broadcastEv (.modeEv "demo") none, .broadcastEv .demoStart none]) := by
  constructor
  · exact c8_mode_privilege.1 "ashika" hostState 1 (some "color") (some "wrong") 0
      (fun c _ => Or.inl (by decide))
  · have h := c8_mode_privilege.2 "ashika" hostState 1
      { name := some "__host__", hex := none, isHost := true, colorsSent := 0, lastColorAt := 0 }
      (some "demo") "demo" 0 (by decide) rfl (by decide)
    simpa using h

/-! ## Client transport outbound queue (ws-client.js) -/

/-- A queued outbound message as the transport's filter/flush logic sees it:
whether `JSON.parse` succeeds on the buffered string, and its `type` field. -/
structure QMsg where
  parseOk : Bool
  mtype : String
deriving DecidableEq, Repr

/-- Source `send(payload)` while disconnected (ws-client.js lines 120-127): buffer
the message, but cap the queue at 20, dropping the new message on
overflow. -/
def offlineEnqueue (q : List QMsg) (m : QMsg) : List QMsg :=
  if q.length < 20 then q ++ [m] else q

/-- The open-handler staleness filter (ws-client.js lines 57-68): keep only
parseable messages whose type is neither `color` nor `join`. -/
def keepOnReconnect (m : QMsg) : Bool :=
  m.parseOk && !(m.mtype = "color") && !(m.mtype = "join")

/-- The queue after the reconnect filter runs. -/
def openFilterQueue (q : List QMsg) : List QMsg :=
  q.filter keepOnReconnect

/-- Source flushQueue (ws-client.js lines 162-173): repeatedly shift the head
and send it while the socket is open; on finding the socket closed, unshift
the head back and stop.  `openAt i` is the socket's openness when the i-th
send is attempted.  Returns (messages sent, in order) and (queue left
behind). -/
def flushAux (openAt : Nat → Bool) : Nat → List QMsg → List QMsg × List QMsg
  | _, [] => ([], [])
  | i, m :: q =>
      if openAt i then
        let r := flushAux openAt (i + 1) q
        (m :: r.fst, r.snd)
      else ([], m :: q)

/-- One run of the private flushQueue method starting at the first send attempt. -/
def flushQueue (openAt : Nat → Bool) (q : List QMsg) : List QMsg × List QMsg :=
  flushAux openAt 0 q

theorem flushAux_append (openAt : Nat → Bool) (i : Nat) (q : List QMsg) :
    (flushAux openAt i q).fst ++ (flushAux openAt i q).snd = q := by
  induction q generalizing i with
  | nil => simp [flushAux]
  | cons m q ih =>
    by_cases h : openAt i <;> simp [flushAux, h, ih]

theorem flushAux_all_open (openAt : Nat → Bool) (h : ∀ j, openAt j = true)
    (i : Nat) (q : List QMsg) : flushAux openAt i q = (q, []) := by
  induction q generalizing i with
  | nil => simp [flushAux]
  | cons m q ih => simp [flushAux, h, ih]

/-- C9.: the client transport's outbound queue never exceeds 20 messages
(a message sent while already at 20 is dropped, not queued); the reconnect
filter keeps exactly the parseable queued messages whose kind is neither
`color` nor `join`; a flush sends a leading segment of the queue earliest
first and leaves exactly the unsent remainder, in order, at the head of the
queue; a flush that finds the connection closed sends nothing and keeps the
queue intact; and a flush with the connection staying open sends everything
and empties the queue. -/
theorem c9_offline_queue :
    (∀ (q : List QMsg) (m : QMsg), q.length ≤ 20 → (offlineEnqueue q m).length ≤ 20)
    ∧ (∀ (q : List QMsg) (m : QMsg), q.length = 20 → offlineEnqueue q m = q)
    ∧ (∀ (q : List QMsg) (m : QMsg),
        m ∈ openFilterQueue q ↔
          (m ∈ q ∧ m.parseOk = true ∧ ¬ m.mtype = "color" ∧ ¬ m.mtype = "join"))
    ∧ (∀ (openAt : Nat → Bool) (i : Nat) (q : List QMsg),
        (flushAux openAt i q).fst ++ (flushAux openAt i q).snd = q)
    ∧ (∀ (openAt : Nat → Bool) (i : Nat) (q : List QMsg) (m : QMsg),
        openAt i = false → flushAux openAt i (m :: q) = ([], m :: q))
    ∧ (∀ (openAt : Nat → Bool) (q : List QMsg), (∀ j, openAt j = true) →
        flushQueue openAt q = (q, [])) := by
  refine ⟨?_, ?_, ?_, flushAux_append, ?_, ?_⟩
  · intro q m h
    simp only [offlineEnqueue]
    split
    · simp only [List.length_append, List.length_cons, List.length_nil]
      omega
    · exact h
  · intro q m h
    simp [offlineEnqueue, h]
  · intro q m
    simp [openFilterQueue, keepOnReconnect, List.mem_filter, and_assoc]
  · intro openAt i q m h
    simp [flushAux, h]
  · intro openAt q h
    exact flushAux_all_open openAt h 0 q

/-- Witness for the outbound-queue theorem: concrete instantiations of the
cap, the overflow drop, the closed-at-start flush and the all-open flush. -/
theorem c9_offline_queue_witness :
    (offlineEnqueue [] { parseOk := true, mtype := "reaction" }).length ≤ 20
    ∧ offlineEnqueue (List.replicate 20 { parseOk := true, mtype := "reaction" })
        { parseOk := true, mtype := "question" }
      = List.replicate 20 { parseOk := true, mtype := "reaction" }
    ∧ flushAux (fun _ => false) 0 [{ parseOk := true, mtype := "reaction" }]
      = ([], [{ parseOk := true, mtype := "reaction" }])
    ∧ flushQueue (fun _ => true)
        [{ parseOk := true, mtype := "reaction" }, { parseOk := true, mtype := "question" }]
      = ([{ parseOk := true, mtype := "reaction" }, { parseOk := true, mtype := "question" }], []) :=
  ⟨c9_offline_queue.1 [] { parseOk := true, mtype := "reaction" } (by decide),
   c9_offline_queue.2.1 (List.replicate 20 { parseOk := true, mtype := "reaction" })
     { parseOk := true, mtype := "question" } (by decide),
   c9_offline_queue.2.2.2.2.1 (fun _ => false) 0 [] { parseOk := true, mtype := "reaction" } rfl,
   c9_offline_queue.2.2.2.2.2 (fun _ => true)
     [{ parseOk := true, mtype := "reaction" }, { parseOk := true, mtype := "question" }]
     (fun _ => rfl)⟩

/-- C10.: the join handler accepts a join from a connection in any state —
including one that has already joined — whenever the sanitized name is
non-empty and the color sanitizes: it overwrites the stored name and color,
replies `joined` to the sender, and broadcasts a fresh `join` event with no
excluded socket. -/
theorem c10_join_any_state :
    ∀ (k : String) (st : AppState) (sid : Nat) (c : Client) (name hex : Option String)
      (h : String) (now : Int),
      lookupClient st sid = some c →
      ¬ jsSanitize name 100 = "" →
      sanitizeHex hex = some h →
      handleMessage k st sid (.join name hex) now
        = (updateClient st sid
             (fun cc => { cc with name := some (jsSanitize name 100), hex := some h }),
           [.reply sid (.joinedEv (studentCount (updateClient st sid
               (fun cc => { cc with name := some (jsSanitize name 100), hex := some h })))),
            .broadcastEv (.joinEv (jsSanitize name 100) h
              (studentCount (updateClient st sid
                (fun cc => { cc with name := some (jsSanitize name 100), hex := some h }))))
              none]) := by
  intro k st sid c name hex h now hc hn hs
  simp [handleMessage, hc, hs, hn]

/-- Witness for the join-in-any-state theorem: connection 1, already joined
as Sam, joins again as Ana with a new color; the stored record is
overwritten and the `joined` reply and `join` broadcast are produced. -/
theorem c10_join_any_state_witness :
    handleMessage "ashika" (run "ashika" initialState samJoin) 1
        (.join (some "Ana") (some "#00FF00")) 0
      = ({ mode := "lobby", roomColorHex := "#FF6EB4", totalColorChanges := 0,
           clients := [(1, { name := some "Ana", hex := some "#00FF00", isHost := false,
                             colorsSent := 0, lastColorAt := 0 })],
           questions := [], textResponses := [] },
         [.reply 1 (.joinedEv 1), .broadcastEv (.joinEv "Ana" "#00FF00" 1) none]) := by
  have h := c10_join_any_state "ashika" (run "ashika" initialState samJoin) 1
      { name := some "Sam", hex := some "#FF6EB4", isHost := false,
        colorsSent := 0, lastColorAt := 0 }
      (some "Ana") (some "#00FF00") "#00FF00" 0 (by decide) (by decide) (by decide)
  exact h.trans (by decide)

end LightRoom
